import Mathlib

/-!
# Verification of the mmonit-hub aggregation pipeline

Shallow embedding of `src/data_fetcher.py` (the canonical, richest variant per
the specification): the Healthchecks status mapping `_hc_status_to_led`, the
cache-key derivation `_project_cache_key`, the pruning cache update
`_update_healthchecks_cache`, the secondary-source fetch
`fetch_healthchecks_for_tenant`, and the tenant aggregator `query_mmonit_data`.
Network effects are modelled by explicit oracles (per-call outcomes passed as
data); Python dicts become structures with `Option` fields for optional keys;
truthiness of Python strings/lists is modelled explicitly.
-/

set_option maxRecDepth 100000

namespace MmonitHub

/-! ## Python string/option helpers -/

/-- Python `a or b` on optional strings: `None` and `""` are falsy. -/
def pyOr (a b : Option String) : Option String :=
  match a with
  | some s => if s = "" then b else some s
  | none => b

/-- Python `a or d` where `d` is a plain string default. -/
def pyOrD (a : Option String) (d : String) : String :=
  match a with
  | some s => if s = "" then d else s
  | none => d

/-- `None`-or-empty collapse: `some ""` and `none` both become `none`. -/
def strOrNone (a : Option String) : Option String :=
  match a with
  | some s => if s = "" then none else some s
  | none => none

/-- Python `s.rstrip("/")`. -/
def pyRstripSlash (s : String) : String :=
  ⟨(s.data.reverse.dropWhile (fun c => c = '/')).reverse⟩

/-- ASCII whitespace as recognised by Python `str.strip`/`str.split`. -/
def isPySpace (c : Char) : Bool :=
  c = ' ' ∨ c = '\t' ∨ c = '\n' ∨ c = '\r' ∨ c.toNat = 11 ∨ c.toNat = 12

/-- Python `s.strip()` (char-list based so it reduces in the kernel). -/
def pyStrip (s : String) : String :=
  ⟨((s.data.dropWhile isPySpace).reverse.dropWhile isPySpace).reverse⟩

/-- Python `s[:n]`. -/
def strTake (s : String) (n : Nat) : String := ⟨s.data.take n⟩

/-- Lowercase one ASCII character (Python `str.lower` on ASCII input). -/
def lowerChar (c : Char) : Char :=
  if 65 ≤ c.toNat ∧ c.toNat ≤ 90 then Char.ofNat (c.toNat + 32) else c

/-- Uppercase one ASCII character (Python `str.upper` on ASCII input). -/
def upperChar (c : Char) : Char :=
  if 97 ≤ c.toNat ∧ c.toNat ≤ 122 then Char.ofNat (c.toNat - 32) else c

/-- Python `s.lower()`. -/
def lowerStr (s : String) : String := ⟨s.data.map lowerChar⟩

/-- Python `s.upper()`. -/
def upperStr (s : String) : String := ⟨s.data.map upperChar⟩

/-- Worker for `pySplitWs`: the second argument is the current word reversed. -/
def splitWsGo : List Char → List Char → List String
  | [], cur => if cur.isEmpty then [] else [⟨cur.reverse⟩]
  | c :: rest, cur =>
      if isPySpace c then
        if cur.isEmpty then splitWsGo rest [] else ⟨cur.reverse⟩ :: splitWsGo rest []
      else splitWsGo rest (c :: cur)

/-- Python `s.split()` (split on whitespace runs, dropping empty pieces). -/
def pySplitWs (s : String) : List String := splitWsGo s.data []

/-- Codepoint-lexicographic strict order on strings (Python `<`). -/
def charListLt : List Char → List Char → Bool
  | [], [] => false
  | [], _ :: _ => true
  | _ :: _, [] => false
  | a :: as, b :: bs => if a < b then true else if b < a then false else charListLt as bs

/-- Boolean `a < b` on strings by codepoints. -/
def strLtB (a b : String) : Bool := charListLt a.data b.data

/-- Insert into a sorted list of strings (lexicographic order). -/
def insSorted (x : String) : List String → List String
  | [] => [x]
  | y :: ys => if !strLtB y x then x :: y :: ys else y :: insSorted x ys

/-- Python `sorted` on a list of strings. -/
def pySorted (l : List String) : List String := l.foldr insSorted []

/-- Python `sep.join(parts)`. -/
def joinSep (sep : String) : List String → String
  | [] => ""
  | [x] => x
  | x :: rest => x ++ sep ++ joinSep sep rest

/-! ## SHA-256 (as used by `hashlib.sha256(...).hexdigest()`) -/

/-- 2^32, the word modulus. -/
def w32 : Nat := 4294967296

/-- Addition modulo 2^32. -/
def add32 (a b : Nat) : Nat := (a + b) % w32

/-- Right rotation of a 32-bit word. -/
def rotr32 (x n : Nat) : Nat := ((x >>> n) ||| (x <<< (32 - n))) % w32

/-- Bitwise complement of a 32-bit word. -/
def not32 (x : Nat) : Nat := 4294967295 ^^^ x

/-- SHA-256 round constants. -/
def shaK : List Nat :=
  [1116352408, 1899447441, 3049323471, 3921009573, 961987163, 1508970993,
   2453635748, 2870763221, 3624381080, 310598401, 607225278, 1426881987,
   1925078388, 2162078206, 2614888103, 3248222580, 3835390401, 4022224774,
   264347078, 604807628, 770255983, 1249150122, 1555081692, 1996064986,
   2554220882, 2821834349, 2952996808, 3210313671, 3336571891, 3584528711,
   113926993, 338241895, 666307205, 773529912, 1294757372, 1396182291,
   1695183700, 1986661051, 2177026350, 2456956037, 2730485921, 2820302411,
   3259730800, 3345764771, 3516065817, 3600352804, 4094571909, 275423344,
   430227734, 506948616, 659060556, 883997877, 958139571, 1322822218,
   1537002063, 1747873779, 1955562222, 2024104815, 2227730452, 2361852424,
   2428436474, 2756734187, 3204031479, 3329325298]

/-- SHA-256 initial hash state. -/
def shaH0 : List Nat :=
  [1779033703, 3144134277, 1013904242, 2773480762,
   1359893119, 2600822924, 528734635, 1541459225]

/-- Small sigma 0. -/
def ssig0 (x : Nat) : Nat := rotr32 x 7 ^^^ rotr32 x 18 ^^^ (x >>> 3)

/-- Small sigma 1. -/
def ssig1 (x : Nat) : Nat := rotr32 x 17 ^^^ rotr32 x 19 ^^^ (x >>> 10)

/-- Big sigma 0. -/
def bsig0 (x : Nat) : Nat := rotr32 x 2 ^^^ rotr32 x 13 ^^^ rotr32 x 22

/-- Big sigma 1. -/
def bsig1 (x : Nat) : Nat := rotr32 x 6 ^^^ rotr32 x 11 ^^^ rotr32 x 25

/-- Pad a byte string per SHA-256: append 0x80, zeros, then the 64-bit
bit-length, to a multiple of 64 bytes. -/
def shaPad (msg : List Nat) : List Nat :=
  let len := msg.length
  let zeros := (119 - len % 64) % 64
  let bitLen := 8 * len
  msg ++ [128] ++ List.replicate zeros 0 ++
    [(bitLen >>> 56) % 256, (bitLen >>> 48) % 256, (bitLen >>> 40) % 256,
     (bitLen >>> 32) % 256, (bitLen >>> 24) % 256, (bitLen >>> 16) % 256,
     (bitLen >>> 8) % 256, bitLen % 256]

/-- Big-endian 32-bit words from bytes. -/
def wordsOfBytes : List Nat → List Nat
  | b0 :: b1 :: b2 :: b3 :: rest =>
      (((b0 * 256 + b1) * 256 + b2) * 256 + b3) :: wordsOfBytes rest
  | _ => []

/-- Split into 64-byte chunks (fuel-recursive so it reduces in the kernel;
the fuel is the list length, which bounds the number of chunks). -/
def chunks64Go : Nat → List Nat → List (List Nat)
  | 0, _ => []
  | _, [] => []
  | fuel + 1, a :: rest => ((a :: rest).take 64) :: chunks64Go fuel (rest.drop 63)

/-- Split into 64-byte chunks. -/
def chunks64 (l : List Nat) : List (List Nat) := chunks64Go l.length l

/-- Extend a 16-word block to the 64-word message schedule. -/
def buildW (w16 : List Nat) : List Nat :=
  (List.range 48).foldl
    (fun w _ =>
      let i := w.length
      w ++ [add32 (add32 (w.getD (i - 16) 0) (ssig0 (w.getD (i - 15) 0)))
              (add32 (w.getD (i - 7) 0) (ssig1 (w.getD (i - 2) 0)))])
    w16

/-- Working state of the compression loop. -/
structure ShaState where
  a : Nat
  b : Nat
  c : Nat
  d : Nat
  e : Nat
  f : Nat
  g : Nat
  h : Nat
deriving Repr, DecidableEq

/-- One SHA-256 compression round. -/
def shaRound (st : ShaState) (kw : Nat × Nat) : ShaState :=
  let t1 := add32 (add32 (add32 st.h (bsig1 st.e))
    (add32 ((st.e &&& st.f) ^^^ (not32 st.e &&& st.g)) kw.1)) kw.2
  let t2 := add32 (bsig0 st.a)
    ((st.a &&& st.b) ^^^ (st.a &&& st.c) ^^^ (st.b &&& st.c))
  { a := add32 t1 t2, b := st.a, c := st.b, d := st.c,
    e := add32 st.d t1, f := st.e, g := st.f, h := st.g }

/-- Compress one 64-byte chunk into the running hash. -/
def shaCompress (hs : List Nat) (chunk : List Nat) : List Nat :=
  let w := buildW (wordsOfBytes chunk)
  let st0 : ShaState :=
    ⟨hs.getD 0 0, hs.getD 1 0, hs.getD 2 0, hs.getD 3 0,
     hs.getD 4 0, hs.getD 5 0, hs.getD 6 0, hs.getD 7 0⟩
  let st := (shaK.zip w).foldl shaRound st0
  [add32 (hs.getD 0 0) st.a, add32 (hs.getD 1 0) st.b,
   add32 (hs.getD 2 0) st.c, add32 (hs.getD 3 0) st.d,
   add32 (hs.getD 4 0) st.e, add32 (hs.getD 5 0) st.f,
   add32 (hs.getD 6 0) st.g, add32 (hs.getD 7 0) st.h]

/-- Hex digit for a nibble. -/
def hexDigit (n : Nat) : Char :=
  if n < 10 then Char.ofNat (48 + n) else Char.ofNat (87 + n)

/-- Lowercase hex of one 32-bit word (8 digits). -/
def hexWord (x : Nat) : List Char :=
  [hexDigit ((x >>> 28) % 16), hexDigit ((x >>> 24) % 16),
   hexDigit ((x >>> 20) % 16), hexDigit ((x >>> 16) % 16),
   hexDigit ((x >>> 12) % 16), hexDigit ((x >>> 8) % 16),
   hexDigit ((x >>> 4) % 16), hexDigit (x % 16)]

/-- UTF-8 bytes of one character. -/
def utf8Char (c : Char) : List Nat :=
  let n := c.toNat
  if n < 128 then [n]
  else if n < 2048 then [192 + n / 64, 128 + n % 64]
  else if n < 65536 then [224 + n / 4096, 128 + (n / 64) % 64, 128 + n % 64]
  else [240 + n / 262144, 128 + (n / 4096) % 64, 128 + (n / 64) % 64, 128 + n % 64]

/-- UTF-8 byte string of a Lean string (Python `str.encode("utf-8")`). -/
def strBytes (s : String) : List Nat := (s.data.map utf8Char).flatten

/-- `hashlib.sha256(s.encode("utf-8")).hexdigest()`. -/
def sha256hex (s : String) : String :=
  let hs := (chunks64 (shaPad (strBytes s))).foldl shaCompress shaH0
  ⟨(hs.map hexWord).flatten⟩

/-! ## Data model

Python dicts become structures; optional dict keys become `Option` fields.
Leds and other JSON numbers are `Int` (they pass through unvalidated in
places, so no subtype is imposed).
-/

/-- A filesystem-usage summary (`fs_info` in the detail loop). -/
structure FsInfo where
  name : String
  usage_percent : Option Int
  usage_mb : Option Int
  total_mb : Option Int
deriving Repr, DecidableEq

/-- An issue row (`issues` entries); `led` is the raw `service.get("led")`. -/
structure Issue where
  name : String
  type : String
  status : String
  led : Option Int
deriving Repr, DecidableEq

/-- A generic service row (`services_detail` entries); `led` defaulted to 2. -/
structure DetailRow where
  name : String
  type : String
  status : String
  led : Int
deriving Repr, DecidableEq

/-- One entry of a service's `statistics` array. -/
structure Stat where
  type : Option Int
  value : Option Int
deriving Repr, DecidableEq

/-- One service record in a host's detail payload. -/
structure Service where
  name : Option String
  type : Option String
  status : Option String
  led : Option Int
  statistics : List Stat
deriving Repr, DecidableEq

/-- The `platform` object of a host detail payload. -/
structure Platform where
  name : Option String
  release : Option String
deriving Repr, DecidableEq

/-- The `records.host` object of a detail response. -/
structure HostDetail where
  platform : Platform
  services : List Service
deriving Repr, DecidableEq

/-- A coarse host record from the primary list endpoint (fields the
aggregator reads; `led` passes through from upstream unmodified). -/
structure RawHost where
  id : Int
  hostname : Option String
  led : Int
deriving Repr, DecidableEq

/-- A primary host after detail enrichment (the mutated host dict). -/
structure MHost where
  id : Int
  hostname : Option String
  led : Int
  os_name : String
  os_release : String
  filesystems : List FsInfo
  issues : List Issue
  service_count : Nat
  services_detail : List DetailRow
  service_names : List String
  source : String
  css_class : String
  view_url : String
deriving Repr, DecidableEq

/-- One check object from the secondary (Healthchecks) API. -/
structure Check where
  id : Option String
  name : Option String
  slug : Option String
  status : Option String
  tags : Option String
  unique_key : Option String
deriving Repr, DecidableEq

/-- A host record produced by the secondary-source adapter. -/
structure HCHost where
  hostname : Option String
  led : Int
  cpu : Int
  mem : Int
  events : Int
  heartbeat : Bool
  id : Option String
  os_name : String
  os_release : String
  filesystems : List FsInfo
  issues : List Issue
  service_count : Nat
  service_names : List String
  services_detail : List DetailRow
  source : String
  css_class : String
  view_url : Option String
deriving Repr, DecidableEq

/-- One project under an instance's `healthchecks.projects`. -/
structure HCProject where
  name : Option String
  api_base : Option String
  api_key : Option String
  tags : Option (List String)
  include_paused : Option Bool
  verify_ssl : Option Bool
deriving Repr, DecidableEq

/-- An instance's `healthchecks` configuration block. -/
structure HCConfig where
  enabled : Bool
  projects : List HCProject
deriving Repr, DecidableEq

/-- One configured tenant instance. -/
structure MInstance where
  name : String
  url : String
  username : String
  password : String
  api_version : Option String
  verify_ssl : Option Bool
  healthchecks : Option HCConfig
deriving Repr, DecidableEq

/-- A host in a tenant's merged host list: primary or secondary shape. -/
inductive AHost where
  | m : MHost → AHost
  | h : HCHost → AHost
deriving Repr, DecidableEq

/-- Led code of a merged host, whichever shape. -/
def AHost.hostLed : AHost → Int
  | .m host => host.led
  | .h host => host.led

/-- One tenant's entry in the aggregation result (`error` key set only
when the error string is truthy, as in `if error:`). -/
structure TenantEntry where
  tenant : String
  url : String
  hosts : List AHost
  error : Option String
deriving Repr, DecidableEq

/-! ## Dicts with Python semantics

Association lists where insertion of an existing key overwrites in place and
a new key is appended (Python dict insertion order). -/

/-- Python `d[k] = v`. -/
def dinsert {α : Type} (k : String) (v : α) : List (String × α) → List (String × α)
  | [] => [(k, v)]
  | (k', v') :: rest => if k' = k then (k, v) :: rest else (k', v') :: dinsert k v rest

/-- Python `d.get(k)`. -/
def dget {α : Type} (k : String) (d : List (String × α)) : Option α :=
  (d.find? (fun p => p.1 = k)).map (fun p => p.2)

/-- A cached snapshot: check key → host record (`host_index`). -/
abbrev HostIndex : Type := List (String × HCHost)

/-- The module-level `_HEALTHCHECK_CACHE`. -/
abbrev Cache : Type := List (String × HostIndex)

/-! ## `_hc_status_to_led` -/

/-- Map a Healthchecks status to an M/Monit led code. -/
def hcStatusToLed (status : String) : Int :=
  let s := lowerStr status
  if s = "up" then 2
  else if s = "grace" ∨ s = "paused" ∨ s = "new" then 1
  else if s = "down" then 0
  else 1

/-! ## `_project_cache_key` -/

/-- Generate the cache key for one project of one instance. -/
def projectCacheKey (inst : MInstance) (proj : HCProject) (api_base : String) : String :=
  let tenant_name :=
    let t := pyStrip (pyOrD (some inst.name) "tenant")
    if t = "" then "tenant" else t
  let project_label :=
    let p := pyStrip (pyOrD proj.name "")
    if p = "" then "project" else p
  let tags_part := joinSep " " (pySorted (proj.tags.getD []))
  let include_paused := if proj.include_paused.getD false then "1" else "0"
  let api_key := proj.api_key.getD ""
  let digest_material := joinSep "|" [api_base, project_label, tags_part, include_paused]
  let digest := strTake (sha256hex (api_key ++ "|" ++ digest_material)) 16
  tenant_name ++ ":" ++ digest

/-! ## `_update_healthchecks_cache` -/

/-- Key under which a host is indexed: its `id`, or `name:<hostname>` when
the id is missing or empty. -/
def hostKey (host : HCHost) : String :=
  match host.id with
  | some s =>
      if s = "" then
        let fallback := let f := pyStrip (host.hostname.getD ""); if f = "" then "unnamed" else f
        "name:" ++ fallback
      else s
  | none =>
      let fallback := let f := pyStrip (host.hostname.getD ""); if f = "" then "unnamed" else f
      "name:" ++ fallback

/-- Build the `host_index` dict from a host list. -/
def buildHostIndex (hosts : List HCHost) : HostIndex :=
  hosts.foldl (fun d host => dinsert (hostKey host) host d) []

/-- Replace the snapshot under `cache_key` wholesale; report which
previously-seen ids disappeared and whether a prune was logged. -/
def updateHealthchecksCache (cache : Cache) (cache_key : String) (hosts : List HCHost) :
    Cache × List String × Bool :=
  let host_index := buildHostIndex hosts
  let previous : HostIndex := (dget cache_key cache).getD []
  let removed_ids := (previous.map (fun p => p.1)).filter (fun i => (dget i host_index).isNone)
  (dinsert cache_key host_index cache, removed_ids, !removed_ids.isEmpty)

/-! ## `fetch_healthchecks_for_tenant`

The network is an oracle: `Nat → HCFetch` gives, per project position, the
outcome of that project's checks request (exception with message, or the
parsed `checks` array). -/

/-- Outcome of one project's checks request. -/
inductive HCFetch where
  | exn : String → HCFetch
  | ok : List Check → HCFetch
deriving Repr

/-- The synthetic error host emitted when a project's request fails. -/
def syntheticApiErrorHost (api_base : String) (proj : HCProject) (msg : String) : HCHost :=
  let projName := proj.name.getD "Project"
  let projId := proj.name.getD "project"
  let osRelease := pyOrD proj.name ""
  { hostname := some ("[Healthchecks] " ++ projName),
    led := 0,
    cpu := 0, mem := 0, events := 0, heartbeat := false,
    id := some ("hcproj:" ++ projId),
    os_name := "Healthchecks",
    os_release := osRelease,
    filesystems := [],
    issues := [{ name := "Healthchecks API error", type := "HTTP", status := msg, led := some 0 }],
    service_count := 0,
    service_names := ["healthchecks-api-error"],
    services_detail := [],
    source := "healthchecks",
    css_class := "healthchecks",
    view_url := some (api_base ++ "/projects") }

/-- Map one check to a host record; `none` when the check is paused and the
project does not include paused checks. -/
def checkToHost (api_base : String) (include_paused : Bool) (c : Check) : Option HCHost :=
  let status := lowerStr (pyOrD c.status "new")
  if status = "paused" ∧ ¬ include_paused then none
  else
    let led := hcStatusToLed status
    let name := pyOrD (pyOr c.name c.slug) "Unnamed Check"
    let tags_str := pyOrD c.tags ""
    let tag_list := pySplitWs tags_str
    let check_view :=
      match strOrNone c.unique_key with
      | some uk => api_base ++ "/checks/" ++ uk
      | none => api_base
    let idBase := pyOrD (pyOr c.id c.unique_key) name
    some
      { hostname := some name,
        led := led,
        cpu := 0, mem := 0, events := 0,
        heartbeat := status = "up" ∨ status = "grace",
        id := some ("hc:" ++ idBase),
        os_name := "Healthchecks",
        os_release := joinSep " " tag_list,
        filesystems := [],
        issues :=
          if status = "up" then []
          else [{ name := "Healthcheck", type := "Ping", status := upperStr status, led := some led }],
        service_count := tag_list.length,
        service_names := tag_list,
        services_detail := tag_list.map (fun t =>
          { name := t, type := "Tag",
            status := if status = "up" then "OK" else upperStr status, led := led }),
        source := "healthchecks",
        css_class := "healthchecks",
        view_url := some check_view }

/-- The effective API base of a project. -/
def projApiBase (proj : HCProject) : String :=
  pyRstripSlash (pyOrD proj.api_base "https://healthchecks.io")

/-- Process one keyed project: on a failed request, exactly one synthetic
error host and no cache update; on success, the mapped checks and a
wholesale cache-entry replacement. -/
def processProject (inst : MInstance) (proj : HCProject) (fetch : HCFetch) (cache : Cache) :
    List HCHost × Cache :=
  let api_base := projApiBase proj
  let include_paused := proj.include_paused.getD false
  match fetch with
  | .exn msg => ([syntheticApiErrorHost api_base proj msg], cache)
  | .ok checks =>
      let project_hosts := checks.filterMap (checkToHost api_base include_paused)
      let cache_key := projectCacheKey inst proj api_base
      (project_hosts, (updateHealthchecksCache cache cache_key project_hosts).1)

/-- Iterate the configured projects, skipping any without an API key. -/
def fetchHCGo (inst : MInstance) (oracle : Nat → HCFetch) :
    List HCProject → Nat → Cache → List HCHost × Cache
  | [], _, cache => ([], cache)
  | proj :: rest, i, cache =>
      if pyOrD proj.api_key "" = "" then fetchHCGo inst oracle rest (i + 1) cache
      else
        let pr := processProject inst proj (oracle i) cache
        let tl := fetchHCGo inst oracle rest (i + 1) pr.2
        (pr.1 ++ tl.1, tl.2)

/-- Fetch the secondary-source hosts for one tenant; disabled entirely
unless the config is present, enabled and has at least one project. -/
def fetchHealthchecksForTenant (inst : MInstance) (oracle : Nat → HCFetch) (cache : Cache) :
    List HCHost × Cache :=
  match inst.healthchecks with
  | none => ([], cache)
  | some cfg =>
      if ¬ cfg.enabled ∨ cfg.projects = [] then ([], cache)
      else fetchHCGo inst oracle cfg.projects 0 cache

/-! ## `query_mmonit_data`: primary enrichment -/

/-- Outcome of one host's detail request: an exception, or a response with a
status code and (when 200) a parsed payload. -/
inductive DetailFetch where
  | exn : DetailFetch
  | resp : Int → HostDetail → DetailFetch
deriving Repr

/-- Accumulator of the service classification loop. -/
structure SvcAcc where
  filesystems : List FsInfo
  issues : List Issue
  services_detail : List DetailRow
  service_names : List String
deriving Repr, DecidableEq

/-- One iteration of the statistics scan: stat type 18 is usage percent,
19 used MB, 20 total MB. -/
def fsStatStep (fs : FsInfo) (stat : Stat) : FsInfo :=
  if stat.type = some 18 then { fs with usage_percent := stat.value }
  else if stat.type = some 19 then { fs with usage_mb := stat.value }
  else if stat.type = some 20 then { fs with total_mb := stat.value }
  else fs

/-- Scan a service's statistics for the three filesystem stat codes. -/
def extractFs (svc : Service) : FsInfo :=
  svc.statistics.foldl fsStatStep
    { name := svc.name.getD "Unknown", usage_percent := none, usage_mb := none, total_mb := none }

/-- One iteration of the service classification loop. -/
def processService (acc : SvcAcc) (svc : Service) : SvcAcc :=
  let acc :=
    if svc.type = some "Filesystem" then
      let fs_info := extractFs svc
      if fs_info.usage_percent.isSome then
        { acc with filesystems := acc.filesystems ++ [fs_info] }
      else acc
    else acc
  let acc :=
    if svc.led = some 0 ∨ svc.led = some 1 then
      { acc with issues := acc.issues ++
          [{ name := svc.name.getD "Unknown", type := svc.type.getD "Unknown",
             status := svc.status.getD "Unknown", led := svc.led }] }
    else acc
  let acc :=
    { acc with services_detail := acc.services_detail ++
        [{ name := svc.name.getD "Unknown", type := svc.type.getD "Unknown",
           status := svc.status.getD "Unknown", led := svc.led.getD 2 }] }
  match svc.name with
  | some n => if n ≠ "" then { acc with service_names := acc.service_names ++ [n] } else acc
  | none => acc

/-- Run the classification loop over all services of a detail payload. -/
def processServices (services : List Service) : SvcAcc :=
  services.foldl processService ⟨[], [], [], []⟩

/-- The neutral placeholder applied when a host's detail fetch fails. -/
def naUpdate (url : String) (host : RawHost) : MHost :=
  let hid := host.id
  { id := host.id, hostname := host.hostname, led := host.led,
    os_name := "OS N/A", os_release := "",
    filesystems := [], issues := [], service_count := 0,
    services_detail := [], service_names := [],
    source := "mmonit", css_class := "",
    view_url := url ++ "/admin/hosts/get?id=" ++ toString hid }

/-- Enrich one raw host with its detail-fetch outcome. -/
def enrichHost (url : String) (host : RawHost) (fetch : DetailFetch) : MHost :=
  match fetch with
  | .exn => naUpdate url host
  | .resp status hd =>
      if status = 200 then
        let hid := host.id
        let acc := processServices hd.services
        { id := host.id, hostname := host.hostname, led := host.led,
          os_name := hd.platform.name.getD "OS N/A",
          os_release := hd.platform.release.getD "",
          filesystems := acc.filesystems, issues := acc.issues,
          service_count := hd.services.length,
          services_detail := acc.services_detail,
          service_names := acc.service_names,
          source := "mmonit", css_class := "",
          view_url := url ++ "/admin/hosts/get?id=" ++ toString hid }
      else naUpdate url host

/-! ## `query_mmonit_data`: tenant loop -/

/-- Exceptions of the outer per-tenant try block. -/
inductive NetErr where
  | timeout : NetErr
  | connError : NetErr
  | other : String → NetErr
deriving Repr, DecidableEq

/-- The error string each exception class is converted to. -/
def netErrMsg : NetErr → String
  | .timeout => "Connection timeout"
  | .connError => "Connection failed"
  | .other m => m

/-- Per-tenant network oracle: outcomes of the bootstrap request, the login
post, the host-list request, each host's detail request (by host id), a
possible exception of the whole secondary fetch, and each project's request
(by project position). -/
structure TenantNet where
  bootstrap : Option NetErr
  login : Except NetErr Int
  hostsList : Except NetErr (Int × List RawHost)
  detail : Int → DetailFetch
  hcRaise : Option String
  hcFetch : Nat → HCFetch

/-- The synthetic host substituted when the secondary fetch itself raises. -/
def mergeErrorHost (msg : String) : HCHost :=
  { hostname := some "[Healthchecks] Merge Error",
    led := 1,
    cpu := 0, mem := 0, events := 0, heartbeat := false,
    id := some "hc:merge-error",
    os_name := "Healthchecks",
    os_release := "",
    filesystems := [],
    issues := [{ name := "Healthchecks merge", type := "Runtime", status := msg, led := some 1 }],
    service_count := 0,
    service_names := [],
    services_detail := [],
    source := "healthchecks",
    css_class := "healthchecks",
    view_url := none }

/-- Primary fetch for one instance: the enriched host list and the tenant
error string (mirrors the body of the outer try block). -/
def primaryFetch (inst : MInstance) (net : TenantNet) : List MHost × Option String :=
  match net.bootstrap with
  | some e => ([], some (netErrMsg e))
  | none =>
      match net.login with
      | .error e => ([], some (netErrMsg e))
      | .ok loginStatus =>
          if loginStatus ≠ 200 then
            ([], some ("Login failed: HTTP " ++ toString loginStatus))
          else
            match net.hostsList with
            | .error e => ([], some (netErrMsg e))
            | .ok (listStatus, records) =>
                if listStatus = 200 then
                  (records.map (fun host => enrichHost inst.url host (net.detail host.id)), none)
                else
                  ([], some ("API error: HTTP " ++ toString listStatus))

/-- Secondary fetch for one instance, with the merge-error fallback. -/
def secondaryFetch (inst : MInstance) (net : TenantNet) (cache : Cache) : List HCHost × Cache :=
  match net.hcRaise with
  | some msg => ([mergeErrorHost msg], cache)
  | none => fetchHealthchecksForTenant inst net.hcFetch cache

/-- One iteration of the tenant loop: fetch, merge, assemble the entry. -/
def runInstance (inst : MInstance) (net : TenantNet) (cache : Cache) : TenantEntry × Cache :=
  let pf := primaryFetch inst net
  let sf := secondaryFetch inst net cache
  let merged_hosts := pf.1.map AHost.m ++ sf.1.map AHost.h
  ({ tenant := inst.name, url := inst.url, hosts := merged_hosts,
     error := match pf.2 with
              | some s => if s = "" then none else some s
              | none => none },
   sf.2)

/-- Tenant filtering: skip when the allowed list is truthy, has no wildcard
and does not contain the name. -/
def skipTenant (allowed : Option (List String)) (name : String) : Bool :=
  match allowed with
  | none => false
  | some l => !l.isEmpty && !l.contains "*" && !l.contains name

/-- The tenant loop; the oracle is indexed by instance position. -/
def queryGo (net : Nat → TenantNet) (allowed : Option (List String)) :
    List MInstance → Nat → Cache → List TenantEntry × Cache
  | [], _, cache => ([], cache)
  | inst :: rest, i, cache =>
      if skipTenant allowed inst.name then queryGo net allowed rest (i + 1) cache
      else
        let r1 := runInstance inst (net i) cache
        let r2 := queryGo net allowed rest (i + 1) r1.2
        (r1.1 :: r2.1, r2.2)

/-- Aggregate data from all instances (`query_mmonit_data`). -/
def queryMmonitData (instances : List MInstance) (allowed : Option (List String))
    (net : Nat → TenantNet) (cache : Cache) : List TenantEntry × Cache :=
  queryGo net allowed instances 0 cache

/-! ## Dictionary lemmas -/

theorem dget_dinsert_self {α : Type} (k : String) (v : α) (d : List (String × α)) :
    dget k (dinsert k v d) = some v := by
  induction d with
  | nil => simp [dinsert, dget]
  | cons p rest ih =>
      by_cases h : p.1 = k
      · simp [dinsert, h, dget]
      · simpa [dinsert, h, dget, List.find?_cons, h] using ih

theorem dget_dinsert_ne {α : Type} {k k' : String} (h : k' ≠ k) (v : α)
    (d : List (String × α)) : dget k' (dinsert k v d) = dget k' d := by
  induction d with
  | nil => simp [dinsert, dget, Ne.symm h]
  | cons p rest ih =>
      by_cases hp : p.1 = k
      · subst hp
        simp [dinsert, dget, List.find?_cons, Ne.symm h]
      · by_cases hp' : p.1 = k'
        · simp [dinsert, hp, dget, List.find?_cons, hp', h]
        · simpa [dinsert, hp, dget, List.find?_cons, hp'] using ih

theorem dget_isSome_iff {α : Type} (k : String) (d : List (String × α)) :
    (dget k d).isSome ↔ k ∈ d.map Prod.fst := by
  induction d with
  | nil => simp [dget]
  | cons p rest ih =>
      by_cases h : p.1 = k
      · simp [dget, List.find?_cons, h]
      · simp [dget, List.find?_cons, h, Ne.symm h, ih]

theorem buildHostIndex_isSome (hosts : List HCHost) (d : HostIndex) (i : String) :
    (dget i (hosts.foldl (fun d host => dinsert (hostKey host) host d) d)).isSome
      ↔ (dget i d).isSome ∨ i ∈ hosts.map hostKey := by
  induction hosts generalizing d with
  | nil => simp
  | cons a rest ih =>
      simp only [List.foldl_cons, List.map_cons, List.mem_cons]
      rw [ih]
      by_cases h : i = hostKey a
      · subst h
        simp [dget_dinsert_self]
      · rw [dget_dinsert_ne h]
        constructor
        · rintro (hs | hm)
          · exact Or.inl hs
          · exact Or.inr (Or.inr hm)
        · rintro (hs | rfl | hm)
          · exact Or.inl hs
          · exact absurd rfl h
          · exact Or.inr hm

theorem buildHostIndex_mem (hosts : List HCHost) (d : HostIndex) (i : String) (hh : HCHost) :
    dget i (hosts.foldl (fun d host => dinsert (hostKey host) host d) d) = some hh →
      (hh ∈ hosts ∧ hostKey hh = i) ∨ dget i d = some hh := by
  induction hosts generalizing d with
  | nil => simp
  | cons a rest ih =>
      intro hget
      simp only [List.foldl_cons] at hget
      rcases ih _ hget with ⟨hmem, hkey⟩ | hbase
      · exact Or.inl ⟨List.mem_cons_of_mem _ hmem, hkey⟩
      · by_cases h : i = hostKey a
        · subst h
          rw [dget_dinsert_self] at hbase
          cases hbase
          exact Or.inl ⟨List.mem_cons_self _ _, rfl⟩
        · rw [dget_dinsert_ne h] at hbase
          exact Or.inr hbase

/-! ## Concrete sample data for witnesses and counterexamples -/

/-- A sample secondary-source host record. -/
def sampleHCHost (i : String) : HCHost :=
  { hostname := some i, led := 2, cpu := 0, mem := 0, events := 0, heartbeat := true,
    id := some i, os_name := "Healthchecks", os_release := "", filesystems := [],
    issues := [], service_count := 0, service_names := [], services_detail := [],
    source := "healthchecks", css_class := "healthchecks", view_url := none }

/-! ## Claim C7: wholesale cache replacement with pruning -/

/-- C7: updating the cache for a project key replaces the stored snapshot
wholesale: afterwards the entry for the key is exactly the index of the new
hosts, that index maps exactly the hosts' keys (ids or name-derived
fallbacks) to host records from the list, the removed ids are exactly those
with an entry in the previous snapshot and none in the new one, and a prune
event is recorded iff at least one id was removed. -/
theorem c7_cache_update_wholesale (cache : Cache) (key : String) (hosts : List HCHost) :
    dget key (updateHealthchecksCache cache key hosts).1 = some (buildHostIndex hosts)
    ∧ (∀ i, (dget i (buildHostIndex hosts)).isSome ↔ i ∈ hosts.map hostKey)
    ∧ (∀ i hh, dget i (buildHostIndex hosts) = some hh → hh ∈ hosts ∧ hostKey hh = i)
    ∧ (∀ i, i ∈ (updateHealthchecksCache cache key hosts).2.1 ↔
        ((dget i ((dget key cache).getD [])).isSome
          ∧ (dget i (buildHostIndex hosts)).isNone))
    ∧ ((updateHealthchecksCache cache key hosts).2.2 = true ↔
        (updateHealthchecksCache cache key hosts).2.1 ≠ []) := by
  refine ⟨?_, ?_, ?_, ?_, ?_⟩
  · simp [updateHealthchecksCache, dget_dinsert_self]
  · intro i
    have := buildHostIndex_isSome hosts [] i
    simpa [buildHostIndex, dget] using this
  · intro i hh hget
    rcases buildHostIndex_mem hosts [] i hh hget with h | h
    · exact h
    · simp [dget] at h
  · intro i
    simp only [updateHealthchecksCache, List.mem_filter]
    constructor
    · rintro ⟨hmem, hnone⟩
      refine ⟨?_, by simpa using hnone⟩
      rw [dget_isSome_iff]
      simpa using hmem
    · rintro ⟨hsome, hnone⟩
      rw [dget_isSome_iff] at hsome
      exact ⟨by simpa using hsome, by simpa using hnone⟩
  · simp [updateHealthchecksCache]

/-- Prior cache snapshot of the C7 witness: keys A, B, C under key "k". -/
def c7Cache : Cache :=
  [("k", [("A", sampleHCHost "A"), ("B", sampleHCHost "B"), ("C", sampleHCHost "C")])]

/-- New fetch of the C7 witness: checks A and C only. -/
def c7Hosts : List HCHost := [sampleHCHost "A", sampleHCHost "C"]

/-- Witness for C7: with prior keys {A,B,C} and a new fetch returning only
{A,C}, key B is removed and a prune event is recorded. -/
theorem c7_cache_update_wholesale_witness :
    "B" ∈ (updateHealthchecksCache c7Cache "k" c7Hosts).2.1
    ∧ (updateHealthchecksCache c7Cache "k" c7Hosts).2.2 = true := by
  have h := c7_cache_update_wholesale c7Cache "k" c7Hosts
  have hB : "B" ∈ (updateHealthchecksCache c7Cache "k" c7Hosts).2.1 :=
    (h.2.2.2.1 "B").mpr ⟨by decide, by decide⟩
  refine ⟨hB, h.2.2.2.2.mpr ?_⟩
  intro hnil
  rw [hnil] at hB
  cases hB

/-! ## Claim C10: cache-update frame condition -/

/-- C10: updating the cache for one project key leaves every other key's
snapshot unchanged. -/
theorem c10_cache_update_frame (cache : Cache) (key k : String) (hosts : List HCHost)
    (hne : k ≠ key) :
    dget k (updateHealthchecksCache cache key hosts).1 = dget k cache := by
  simp [updateHealthchecksCache, dget_dinsert_ne hne]

/-- Witness for C10 at a concrete cache with two keys. -/
theorem c10_cache_update_frame_witness :
    dget "other" (updateHealthchecksCache
        [("other", [("x", sampleHCHost "x")]), ("proj", [("y", sampleHCHost "y")])]
        "proj" []).1
      = dget "other" [("other", [("x", sampleHCHost "x")]), ("proj", [("y", sampleHCHost "y")])] :=
  c10_cache_update_frame _ _ _ _ (by decide)

/-! ## Claim C8: cache key and the secret API key -/

/-- Instance used in the C8 counterexample. -/
def c8Inst : MInstance :=
  { name := "t1", url := "https://mm.example", username := "u", password := "p",
    api_version := none, verify_ssl := none, healthchecks := none }

/-- Project with API key "keyA". -/
def c8ProjA : HCProject :=
  { name := some "Prod", api_base := none, api_key := some "keyA", tags := none,
    include_paused := none, verify_ssl := none }

/-- The same project configuration with API key "keyB" instead. -/
def c8ProjB : HCProject := { c8ProjA with api_key := some "keyB" }

/-- C8 counterexample: two configurations that differ only in the secret API
key produce different cache keys, because the key is prepended to the digest
material (`f"{api_key}|{digest_material}"`); the claim that the cache key
never depends on the API key is false. -/
theorem c8_cache_key_uses_api_key_cex :
    projectCacheKey c8Inst c8ProjA "https://healthchecks.io"
      ≠ projectCacheKey c8Inst c8ProjB "https://healthchecks.io" := by
  decide

/-- C8 amended: the cache key is a pure function of tenant name, project
name, tag set, include-paused flag, API base and API key — independent of
every other field (credentials, URLs, TLS flags). The secret never appears
in the key in clear text, only through a truncated SHA-256 digest. -/
theorem c8_cache_key_pure_function (i1 i2 : MInstance) (p1 p2 : HCProject) (base : String)
    (hn : i1.name = i2.name) (hp : p1.name = p2.name) (ht : p1.tags = p2.tags)
    (hip : p1.include_paused = p2.include_paused) (hk : p1.api_key = p2.api_key) :
    projectCacheKey i1 p1 base = projectCacheKey i2 p2 base := by
  simp [projectCacheKey, hn, hp, ht, hip, hk]

/-- Witness for C8's amended theorem: two configurations differing in URL,
credentials, TLS flag and configured API base still yield the same key for
the same effective base. -/
theorem c8_cache_key_pure_function_witness :
    projectCacheKey
        { name := "t1", url := "https://a.example", username := "u1", password := "p1",
          api_version := none, verify_ssl := some true, healthchecks := none }
        { name := some "Prod", api_base := some "https://hc.example/", api_key := some "k",
          tags := some ["a"], include_paused := some true, verify_ssl := some true }
        "https://hc.example"
      = projectCacheKey
        { name := "t1", url := "https://b.example", username := "u2", password := "p2",
          api_version := some "3", verify_ssl := none, healthchecks := none }
        { name := some "Prod", api_base := none, api_key := some "k",
          tags := some ["a"], include_paused := some true, verify_ssl := none }
        "https://hc.example" :=
  c8_cache_key_pure_function _ _ _ _ _ rfl rfl rfl rfl rfl

/-! ## Claim C6: secondary status mapping and paused exclusion -/

/-- C6: secondary checks map "up" to led 2, "down" to 0, grace/paused/new
to 1 and any unrecognized status to 1; a paused check is dropped unless the
project includes paused checks, in which case it maps to led 1; every
emitted check host's led is the status's mapped led. -/
theorem c6_secondary_status_mapping (api_base : String) (ip : Bool) (c : Check) (s : String) :
    (hcStatusToLed "up" = 2 ∧ hcStatusToLed "down" = 0
      ∧ hcStatusToLed "grace" = 1 ∧ hcStatusToLed "paused" = 1 ∧ hcStatusToLed "new" = 1)
    ∧ (lowerStr s ∉ (["up", "down", "grace", "paused", "new"] : List String) →
        hcStatusToLed s = 1)
    ∧ (lowerStr (pyOrD c.status "new") = "paused" → ip = false →
        checkToHost api_base ip c = none)
    ∧ (lowerStr (pyOrD c.status "new") = "paused" → ip = true →
        (checkToHost api_base ip c).isSome)
    ∧ (lowerStr (pyOrD c.status "new") ≠ "paused" → (checkToHost api_base ip c).isSome)
    ∧ (∀ hh, checkToHost api_base ip c = some hh →
        hh.led = hcStatusToLed (lowerStr (pyOrD c.status "new"))) := by
  refine ⟨by decide, ?_, ?_, ?_, ?_, ?_⟩
  · intro hmem
    simp only [List.mem_cons, List.not_mem_nil, or_false, not_or] at hmem
    obtain ⟨h1, h2, h3, h4, h5⟩ := hmem
    simp [hcStatusToLed, h1, h2, h3, h4, h5]
  · intro hs hip
    simp [checkToHost, hs, hip]
  · intro hs hip
    simp [checkToHost, hs, hip]
  · intro hs
    simp [checkToHost, hs]
  · intro hh hget
    simp only [checkToHost] at hget
    split at hget
    · cases hget
    · cases hget
      rfl

/-- Witness for C6 at a concrete check with an unrecognized status. -/
theorem c6_secondary_status_mapping_witness :
    hcStatusToLed "bizarre" = 1
    ∧ checkToHost "https://hc.example" false
        { id := some "c9", name := some "paused check", slug := none,
          status := some "paused", tags := none, unique_key := none } = none :=
  ⟨(c6_secondary_status_mapping "b" false
      { id := none, name := none, slug := none, status := none, tags := none,
        unique_key := none } "bizarre").2.1 (by decide),
   (c6_secondary_status_mapping "https://hc.example" false
      { id := some "c9", name := some "paused check", slug := none,
        status := some "paused", tags := none, unique_key := none } "x").2.2.1
     (by decide) rfl⟩

/-! ## Claim C5: service classification -/

/-- The issue row derived from a service with led 0 or 1. -/
def issueOfService (svc : Service) : Issue :=
  { name := svc.name.getD "Unknown", type := svc.type.getD "Unknown",
    status := svc.status.getD "Unknown", led := svc.led }

/-- The generic detail row recorded for every service. -/
def detailRowOfService (svc : Service) : DetailRow :=
  { name := svc.name.getD "Unknown", type := svc.type.getD "Unknown",
    status := svc.status.getD "Unknown", led := svc.led.getD 2 }

theorem processService_filesystems (acc : SvcAcc) (svc : Service) :
    (processService acc svc).filesystems =
      acc.filesystems ++
        (if svc.type = some "Filesystem" ∧ (extractFs svc).usage_percent.isSome
          then [extractFs svc] else []) := by
  cases hn : svc.name <;>
    simp only [processService, hn] <;> split_ifs <;> simp_all

theorem processService_issues (acc : SvcAcc) (svc : Service) :
    (processService acc svc).issues =
      acc.issues ++
        (if svc.led = some 0 ∨ svc.led = some 1 then [issueOfService svc] else []) := by
  cases hn : svc.name <;>
    simp only [processService, issueOfService, hn] <;> split_ifs <;> simp_all

theorem processService_details (acc : SvcAcc) (svc : Service) :
    (processService acc svc).services_detail =
      acc.services_detail ++ [detailRowOfService svc] := by
  cases hn : svc.name <;>
    simp only [processService, detailRowOfService, hn] <;> split_ifs <;> simp_all

theorem processServices_spec (svcs : List Service) (acc : SvcAcc) :
    (svcs.foldl processService acc).filesystems
        = acc.filesystems ++ (svcs.filter (fun s =>
            decide (s.type = some "Filesystem") && (extractFs s).usage_percent.isSome)).map extractFs
    ∧ (svcs.foldl processService acc).issues
        = acc.issues ++ (svcs.filter (fun s =>
            decide (s.led = some 0) || decide (s.led = some 1))).map issueOfService
    ∧ (svcs.foldl processService acc).services_detail
        = acc.services_detail ++ svcs.map detailRowOfService := by
  induction svcs generalizing acc with
  | nil => simp
  | cons a rest ih =>
      obtain ⟨ih1, ih2, ih3⟩ := ih (processService acc a)
      refine ⟨?_, ?_, ?_⟩
      · rw [List.foldl_cons, ih1, processService_filesystems, List.filter_cons]
        by_cases h : a.type = some "Filesystem" ∧ (extractFs a).usage_percent.isSome
        · simp [h]
        · simp only [decide_eq_true_eq] at *
          rw [if_neg h]
          simp only [Bool.and_eq_true, decide_eq_true_eq]
          rw [if_neg (by simpa using h)]
          simp
      · rw [List.foldl_cons, ih2, processService_issues, List.filter_cons]
        by_cases h : a.led = some 0 ∨ a.led = some 1
        · simp [h]
        · rw [if_neg h]
          simp only [Bool.or_eq_true, decide_eq_true_eq]
          rw [if_neg (by simpa using h)]
          simp
      · rw [List.foldl_cons, ih3, processService_details]
        simp

theorem extractFs_usage_iff (stats : List Stat) (fs : FsInfo)
    (hv : ∀ st ∈ stats, st.value.isSome) :
    (stats.foldl fsStatStep fs).usage_percent.isSome
      ↔ (fs.usage_percent.isSome ∨ ∃ st ∈ stats, st.type = some 18) := by
  induction stats generalizing fs with
  | nil => simp
  | cons st rest ih =>
      have hst := hv st (List.mem_cons_self _ _)
      have hrest : ∀ s ∈ rest, s.value.isSome := fun s hs => hv s (List.mem_cons_of_mem _ hs)
      simp only [List.foldl_cons]
      rw [ih _ hrest]
      by_cases h18 : st.type = some 18
      · constructor
        · intro _
          exact Or.inr ⟨st, List.mem_cons_self _ _, h18⟩
        · intro _
          exact Or.inl (by simp [fsStatStep, h18, hst])
      · have hkeep : (fsStatStep fs st).usage_percent = fs.usage_percent := by
          simp only [fsStatStep]
          split_ifs <;> simp_all
        rw [hkeep]
        constructor
        · rintro (hfs | ⟨x, hx, h⟩)
          · exact Or.inl hfs
          · exact Or.inr ⟨x, List.mem_cons_of_mem _ hx, h⟩
        · rintro (hfs | ⟨x, hx, h⟩)
          · exact Or.inl hfs
          · rcases List.mem_cons.mp hx with rfl | hx'
            · exact absurd h h18
            · exact Or.inr ⟨x, hx', h⟩

/-- C5: in the detail-payload classification, a filesystem entry appears in
`filesystems` iff the service has type Filesystem and the usage-percent
extraction (last type-18 stat) yielded a value — for payloads whose stat
entries all carry values, iff a type-18 stat is present; a service appears
in `issues` iff its led is 0 or 1; and every service contributes a row to
`services_detail` regardless of health. -/
theorem c5_service_classification (services : List Service) :
    (processServices services).filesystems
        = (services.filter (fun s =>
            decide (s.type = some "Filesystem") && (extractFs s).usage_percent.isSome)).map extractFs
    ∧ (processServices services).issues
        = (services.filter (fun s =>
            decide (s.led = some 0) || decide (s.led = some 1))).map issueOfService
    ∧ (processServices services).services_detail = services.map detailRowOfService
    ∧ (∀ s ∈ services, (∀ st ∈ s.statistics, st.value.isSome) →
        ((extractFs s).usage_percent.isSome ↔ ∃ st ∈ s.statistics, st.type = some 18)) := by
  obtain ⟨h1, h2, h3⟩ := processServices_spec services ⟨[], [], [], []⟩
  refine ⟨by simpa [processServices] using h1, by simpa [processServices] using h2,
    by simpa [processServices] using h3, ?_⟩
  intro s _ hv
  have := extractFs_usage_iff s.statistics
    { name := s.name.getD "Unknown", usage_percent := none, usage_mb := none, total_mb := none }
    hv
  simpa [extractFs] using this

/-- Service used in the C5 witness. -/
def c5Svc : Service :=
  { name := some "root", type := some "Filesystem", status := some "OK", led := some 2,
    statistics := [{ type := some 18, value := some 93 }, { type := some 19, value := some 10 }] }

/-- Witness for C5 at a concrete filesystem service whose stats carry values. -/
theorem c5_service_classification_witness :
    (∀ st ∈ c5Svc.statistics, st.value.isSome)
    ∧ ((extractFs c5Svc).usage_percent.isSome ↔ ∃ st ∈ c5Svc.statistics, st.type = some 18) :=
  ⟨by decide, (c5_service_classification [c5Svc]).2.2.2 c5Svc (by simp) (by decide)⟩

/-! ## Claim C3: individual failures never abort the batch -/

/-- C3: a host's detail-fetch failure (exception, or non-200 status) leaves
that host in the output with empty filesystems and issues, service count 0
and OS name "OS N/A", preserving its identity; on a successful list fetch
the output covers every listed host in order with no tenant error; and one
secondary project's request failure yields exactly one synthetic ERROR host
(led 0, carrying the exception text) without touching the cache. The
embedding is total, so neither failure can surface as an exception. -/
theorem c3_individual_failures_isolated (url : String) (host : RawHost) (status : Int)
    (hd : HostDetail) (inst : MInstance) (net : TenantNet) (records : List RawHost)
    (proj : HCProject) (cache : Cache) (msg : String)
    (hb : net.bootstrap = none) (hl : net.login = Except.ok 200)
    (hr : net.hostsList = Except.ok (200, records)) (hst : status ≠ 200) :
    ((enrichHost url host .exn).filesystems = []
      ∧ (enrichHost url host .exn).issues = []
      ∧ (enrichHost url host .exn).service_count = 0
      ∧ (enrichHost url host .exn).os_name = "OS N/A")
    ∧ ((enrichHost url host (.resp status hd)).filesystems = []
      ∧ (enrichHost url host (.resp status hd)).issues = []
      ∧ (enrichHost url host (.resp status hd)).service_count = 0
      ∧ (enrichHost url host (.resp status hd)).os_name = "OS N/A")
    ∧ (∀ f : DetailFetch, (enrichHost url host f).id = host.id
        ∧ (enrichHost url host f).hostname = host.hostname
        ∧ (enrichHost url host f).led = host.led)
    ∧ ((primaryFetch inst net).1
        = records.map (fun r => enrichHost inst.url r (net.detail r.id))
      ∧ (primaryFetch inst net).1.length = records.length
      ∧ (primaryFetch inst net).2 = none)
    ∧ (processProject inst proj (.exn msg) cache
        = ([syntheticApiErrorHost (projApiBase proj) proj msg], cache)
      ∧ (syntheticApiErrorHost (projApiBase proj) proj msg).led = 0
      ∧ (syntheticApiErrorHost (projApiBase proj) proj msg).issues
          = [{ name := "Healthchecks API error", type := "HTTP", status := msg, led := some 0 }]) := by
  refine ⟨⟨rfl, rfl, rfl, rfl⟩, ?_, ?_, ?_, rfl, rfl, rfl⟩
  · simp [enrichHost, hst, naUpdate]
  · intro f
    cases f with
    | exn => exact ⟨rfl, rfl, rfl⟩
    | resp st hd =>
        by_cases h : st = 200 <;> simp [enrichHost, naUpdate, h]
  · simp [primaryFetch, hb, hl, hr]

/-- Witness for C3 at concrete inputs: a failing detail response and a
failing project request. -/
theorem c3_individual_failures_isolated_witness :
    (enrichHost "http://mm" { id := 2, hostname := some "h2", led := 1 }
        (.resp 500 { platform := { name := none, release := none }, services := [] })).os_name
      = "OS N/A"
    ∧ (processProject c8Inst
        { name := some "P", api_base := none, api_key := some "k", tags := none,
          include_paused := none, verify_ssl := none }
        (.exn "boom") []).1.length = 1 := by
  have h := c3_individual_failures_isolated "http://mm"
    { id := 2, hostname := some "h2", led := 1 } 500
    { platform := { name := none, release := none }, services := [] }
    c8Inst
    { bootstrap := none, login := Except.ok 200, hostsList := Except.ok (200, []),
      detail := fun _ => .exn, hcRaise := none, hcFetch := fun _ => .ok [] }
    []
    { name := some "P", api_base := none, api_key := some "k", tags := none,
      include_paused := none, verify_ssl := none }
    [] "boom" rfl rfl rfl (by decide)
  exact ⟨h.2.1.2.2.2, by rw [h.2.2.2.2.1]; rfl⟩

/-! ## Claim C4: led codes of emitted hosts -/

theorem hcStatusToLed_range (s : String) :
    hcStatusToLed s = 0 ∨ hcStatusToLed s = 1 ∨ hcStatusToLed s = 2 := by
  simp only [hcStatusToLed]
  split_ifs <;> simp

theorem checkToHost_led_eq (api_base : String) (ip : Bool) (c : Check) (hh : HCHost)
    (h : checkToHost api_base ip c = some hh) :
    hh.led = hcStatusToLed (lowerStr (pyOrD c.status "new")) := by
  simp only [checkToHost] at h
  split at h
  · cases h
  · cases h
    rfl

theorem processProject_led_range (inst : MInstance) (proj : HCProject) (fetch : HCFetch)
    (cache : Cache) :
    ∀ hh ∈ (processProject inst proj fetch cache).1, hh.led = 0 ∨ hh.led = 1 ∨ hh.led = 2 := by
  intro hh hmem
  cases fetch with
  | exn msg =>
      simp only [processProject, List.mem_singleton] at hmem
      subst hmem
      exact Or.inl rfl
  | ok checks =>
      simp only [processProject, List.mem_filterMap] at hmem
      obtain ⟨c, _, hc⟩ := hmem
      rw [checkToHost_led_eq _ _ _ _ hc]
      exact hcStatusToLed_range _

theorem fetchHCGo_led_range (inst : MInstance) (oracle : Nat → HCFetch) :
    ∀ projs i cache hh, hh ∈ (fetchHCGo inst oracle projs i cache).1 →
      hh.led = 0 ∨ hh.led = 1 ∨ hh.led = 2 := by
  intro projs
  induction projs with
  | nil =>
      intro i cache hh hmem
      simp [fetchHCGo] at hmem
  | cons p rest ih =>
      intro i cache hh hmem
      simp only [fetchHCGo] at hmem
      split at hmem
      · exact ih _ _ _ hmem
      · rcases List.mem_append.mp hmem with hl | hr
        · exact processProject_led_range inst p (oracle i) cache hh hl
        · exact ih _ _ _ hr

theorem fetchHC_led_range (inst : MInstance) (oracle : Nat → HCFetch) (cache : Cache) :
    ∀ hh ∈ (fetchHealthchecksForTenant inst oracle cache).1,
      hh.led = 0 ∨ hh.led = 1 ∨ hh.led = 2 := by
  intro hh hmem
  simp only [fetchHealthchecksForTenant] at hmem
  split at hmem
  · simp at hmem
  · split at hmem
    · simp at hmem
    · exact fetchHCGo_led_range inst oracle _ _ _ _ hmem

/-- Instance used by the C4 counterexample (no secondary source). -/
def c4Inst : MInstance :=
  { name := "t1", url := "http://mm.example", username := "u", password := "p",
    api_version := none, verify_ssl := none, healthchecks := none }

/-- Oracle used by the C4 counterexample: the upstream list endpoint returns
one host whose raw led is 7. -/
def c4Net : TenantNet :=
  { bootstrap := none, login := Except.ok 200,
    hostsList := Except.ok (200, [{ id := 1, hostname := some "h1", led := 7 }]),
    detail := fun _ => DetailFetch.exn, hcRaise := none, hcFetch := fun _ => HCFetch.ok [] }

/-- C4 counterexample: a primary host whose upstream led is 7 is emitted
with led 7 — the aggregator never validates or remaps primary-source led
values, so the claim that every emitted host's led lies in {0,1,2} is
false. -/
theorem c4_primary_led_passthrough_cex :
    ((runInstance c4Inst c4Net []).1.hosts.map AHost.hostLed) = [7] := by
  decide

/-- C4 amended: every secondary-source host (normal, synthetic project
error, and merge error) has led in {0,1,2} and unknown secondary statuses
map to WARNING (led 1); primary-source hosts keep their upstream led
unchanged, whatever it is. -/
theorem c4_led_ranges (inst : MInstance) (oracle : Nat → HCFetch) (cache : Cache)
    (net : TenantNet) (url : String) (host : RawHost) (d : DetailFetch) (s msg : String) :
    (∀ hh ∈ (fetchHealthchecksForTenant inst oracle cache).1,
        hh.led = 0 ∨ hh.led = 1 ∨ hh.led = 2)
    ∧ (∀ hh ∈ (secondaryFetch inst net cache).1, hh.led = 0 ∨ hh.led = 1 ∨ hh.led = 2)
    ∧ ((mergeErrorHost msg).led = 1)
    ∧ (lowerStr s ∉ (["up", "down", "grace", "paused", "new"] : List String) →
        hcStatusToLed s = 1)
    ∧ ((enrichHost url host d).led = host.led) := by
  refine ⟨fetchHC_led_range inst oracle cache, ?_, rfl, ?_, ?_⟩
  · intro hh hmem
    simp only [secondaryFetch] at hmem
    split at hmem
    · simp only [List.mem_singleton] at hmem
      subst hmem
      exact Or.inr (Or.inl rfl)
    · exact fetchHC_led_range inst _ cache hh hmem
  · intro hmem
    simp only [List.mem_cons, List.not_mem_nil, or_false, not_or] at hmem
    obtain ⟨h1, h2, h3, h4, h5⟩ := hmem
    simp [hcStatusToLed, h1, h2, h3, h4, h5]
  · cases d with
    | exn => rfl
    | resp st hd => by_cases h : st = 200 <;> simp [enrichHost, naUpdate, h]

/-- Witness for C4's amended theorem: the unknown status "bizarre" maps to
led 1. -/
theorem c4_led_ranges_witness : hcStatusToLed "bizarre" = 1 :=
  (c4_led_ranges c4Inst (fun _ => HCFetch.ok []) [] c4Net "u"
    { id := 0, hostname := none, led := 0 } DetailFetch.exn "bizarre" "m").2.2.2.1
    (by decide)

/-! ## Claim C9: merge order and secondary-exception isolation -/

/-- C9: when the primary fetch succeeds, the tenant's host list is exactly
the primary hosts (in list order) followed by the secondary hosts, with no
tenant error; and an exception of the whole secondary fetch is caught and
replaced by the single synthetic merge-error host, leaving the primary
result intact. -/
theorem c9_merge_order (inst : MInstance) (net : TenantNet) (cache : Cache)
    (records : List RawHost) (msg : String)
    (hb : net.bootstrap = none) (hl : net.login = Except.ok 200)
    (hr : net.hostsList = Except.ok (200, records)) :
    ((runInstance inst net cache).1.hosts
        = (records.map (fun r => enrichHost inst.url r (net.detail r.id))).map AHost.m
            ++ (secondaryFetch inst net cache).1.map AHost.h)
    ∧ ((runInstance inst net cache).1.error = none)
    ∧ (net.hcRaise = some msg →
        (runInstance inst net cache).1.hosts
          = (records.map (fun r => enrichHost inst.url r (net.detail r.id))).map AHost.m
              ++ [AHost.h (mergeErrorHost msg)]) := by
  have hpf : primaryFetch inst net
      = (records.map (fun r => enrichHost inst.url r (net.detail r.id)), none) := by
    simp [primaryFetch, hb, hl, hr]
  refine ⟨?_, ?_, ?_⟩
  · simp [runInstance, hpf]
  · simp [runInstance, hpf]
  · intro hraise
    simp [runInstance, hpf, secondaryFetch, hraise]

/-- Witness for C9: one primary host and a raising secondary fetch. -/
theorem c9_merge_order_witness :
    (runInstance c4Inst
        { c4Net with hcRaise := some "boom" } []).1.hosts
      = ([{ id := 1, hostname := some "h1", led := 7 }].map
          (fun r => enrichHost c4Inst.url r DetailFetch.exn)).map AHost.m
          ++ [AHost.h (mergeErrorHost "boom")] := by
  have h := c9_merge_order c4Inst { c4Net with hcRaise := some "boom" } []
    [{ id := 1, hostname := some "h1", led := 7 }] "boom" rfl rfl rfl
  exact h.2.2 rfl

/-! ## Claim C1: error entries and merged hosts -/

theorem primaryFetch_error_no_hosts (inst : MInstance) (net : TenantNet) (s : String)
    (h : (primaryFetch inst net).2 = some s) : (primaryFetch inst net).1 = [] := by
  obtain ⟨b, lg, ls, dt, hcr, hcf⟩ := net
  cases b with
  | some e => rfl
  | none =>
      cases lg with
      | error e => rfl
      | ok st =>
          by_cases h200 : st = 200
          · subst h200
            cases ls with
            | error e => rfl
            | ok p =>
                obtain ⟨lst, recs⟩ := p
                by_cases hl200 : lst = 200
                · subst hl200
                  simp [primaryFetch] at h
                · simp [primaryFetch, hl200]
          · simp [primaryFetch, h200]

/-- Project used by the C1 counterexample. -/
def c1Proj : HCProject :=
  { name := some "Prod", api_base := none, api_key := some "sekrit", tags := none,
    include_paused := none, verify_ssl := none }

/-- Instance used by the C1 counterexample: secondary source enabled. -/
def c1Inst : MInstance :=
  { name := "t1", url := "https://mm.example", username := "u", password := "p",
    api_version := none, verify_ssl := none,
    healthchecks := some { enabled := true, projects := [c1Proj] } }

/-- Oracle used by the C1 counterexample: login answers 403, the secondary
project's request succeeds with one check that is up. -/
def c1Net : TenantNet :=
  { bootstrap := none, login := Except.ok 403,
    hostsList := Except.error NetErr.timeout,
    detail := fun _ => DetailFetch.exn, hcRaise := none,
    hcFetch := fun _ => HCFetch.ok
      [{ id := some "c1", name := some "db backup", slug := none, status := some "up",
         tags := some "prod web", unique_key := some "uk1" }] }

/-- C1 counterexample: with login failing at HTTP 403 and a succeeding
secondary fetch, the tenant entry carries both the error string and a
non-empty hosts list — the secondary hosts are merged in despite the error,
so error and hosts are not mutually exclusive and the 403 scenario's
`hosts: []` is not what the code produces. -/
theorem c1_error_with_hosts_cex :
    (runInstance c1Inst c1Net []).1.error = some "Login failed: HTTP 403"
    ∧ (runInstance c1Inst c1Net []).1.hosts ≠ [] := by
  decide

/-- C1 amended: if a tenant entry's error is set, the entry contains no
primary-source hosts — its hosts list is exactly the secondary-source hosts
(so it is empty for instances without a secondary source); in the 403
scenario the entry is `{tenant, url, error: "Login failed: HTTP 403",
hosts: <secondary hosts>}`. -/
theorem c1_error_implies_secondary_only (inst : MInstance) (net : TenantNet) (cache : Cache) :
    (∀ e, (runInstance inst net cache).1.error = some e →
        (runInstance inst net cache).1.hosts = (secondaryFetch inst net cache).1.map AHost.h)
    ∧ (net.bootstrap = none → net.login = Except.ok 403 →
        (runInstance inst net cache).1.error = some "Login failed: HTTP 403"
        ∧ (runInstance inst net cache).1.tenant = inst.name
        ∧ (runInstance inst net cache).1.url = inst.url
        ∧ (runInstance inst net cache).1.hosts
            = (secondaryFetch inst net cache).1.map AHost.h) := by
  constructor
  · intro e herr
    have hpf : (primaryFetch inst net).2 = some e := by
      simp only [runInstance] at herr
      split at herr
      · split at herr
        · cases herr
        · simp_all
      · cases herr
    have hempty := primaryFetch_error_no_hosts inst net e hpf
    simp [runInstance, hempty]
  · intro hb hl
    have hpf : primaryFetch inst net = ([], some "Login failed: HTTP 403") := by
      simp [primaryFetch, hb, hl]
      rfl
    refine ⟨?_, rfl, rfl, ?_⟩ <;> simp [runInstance, hpf]

/-- Witness for C1's amended theorem at the concrete 403 scenario. -/
theorem c1_error_implies_secondary_only_witness :
    (runInstance c1Inst c1Net []).1.error = some "Login failed: HTTP 403"
    ∧ (runInstance c1Inst c1Net []).1.hosts
        = (secondaryFetch c1Inst c1Net []).1.map AHost.h := by
  have h := (c1_error_implies_secondary_only c1Inst c1Net []).2 rfl rfl
  exact ⟨h.1, h.2.2.2⟩

/-! ## Claim C2: tenant filtering -/

theorem queryGo_tenant_allowed (netO : Nat → TenantNet) (allowed : List String)
    (hne : allowed ≠ []) (hw : "*" ∉ allowed) :
    ∀ (instances : List MInstance) (i : Nat) (cache : Cache)
      (e : TenantEntry), e ∈ (queryGo netO (some allowed) instances i cache).1 →
      e.tenant ∈ allowed := by
  intro instances
  induction instances with
  | nil =>
      intro i cache e he
      simp [queryGo] at he
  | cons inst rest ih =>
      intro i cache e he
      simp only [queryGo] at he
      split at he
      · exact ih _ _ _ he
      · rename_i hskip
        rcases List.mem_cons.mp he with rfl | he'
        · have hmem : inst.name ∈ allowed := by
            have h1 : allowed.isEmpty = false := by
              cases allowed with
              | nil => exact absurd rfl hne
              | cons a t => rfl
            have h2 : allowed.contains "*" = false := by
              by_contra hc
              exact hw (List.mem_of_elem_eq_true (by simpa using hc))
            simp only [skipTenant, h1, h2, Bool.not_false, Bool.true_and,
              Bool.not_eq_true', Bool.not_eq_false] at hskip
            exact List.mem_of_elem_eq_true hskip
          simpa [runInstance] using hmem
        · exact ih _ _ _ he'

/-- C2 amended: for every non-empty allowed-tenant list without the
wildcard marker, every produced tenant entry's name is in the allowed list —
so instances whose names are not allowed are absent entirely. (An empty
allowed list is falsy in the skip condition and disables filtering, so the
original claim's "including when the allowed list is empty" is false.) -/
theorem c2_tenant_filtering (instances : List MInstance) (allowed : List String)
    (netO : Nat → TenantNet) (cache : Cache)
    (hne : allowed ≠ []) (hw : "*" ∉ allowed) :
    ∀ e ∈ (queryMmonitData instances (some allowed) netO cache).1, e.tenant ∈ allowed :=
  fun e he => queryGo_tenant_allowed netO allowed hne hw instances 0 cache e he

/-- Instance used by the C2 theorems. -/
def c2Inst : MInstance :=
  { name := "t1", url := "http://mm.example", username := "u", password := "p",
    api_version := none, verify_ssl := none, healthchecks := none }

/-- Oracle used by the C2 theorems: the bootstrap request times out. -/
def c2Net : TenantNet :=
  { bootstrap := some NetErr.timeout, login := Except.error NetErr.timeout,
    hostsList := Except.error NetErr.timeout, detail := fun _ => DetailFetch.exn,
    hcRaise := none, hcFetch := fun _ => HCFetch.ok [] }

/-- C2 counterexample: with an empty allowed list, instance "t1" — whose
name is not in the (empty) list — still produces a tenant entry: the empty
list is falsy in `if allowed_tenants and ...`, so filtering is disabled
rather than excluding every instance. -/
theorem c2_empty_allowed_cex :
    ((queryMmonitData [c2Inst] (some []) (fun _ => c2Net) []).1.map
        (fun e => e.tenant)) = ["t1"] := by
  decide

/-- Witness for C2's amended theorem: with allowed list ["t2"], the lone
produced entry (there is none for instance "t1") is vacuously allowed; here
instantiated to show the filtering result directly. -/
theorem c2_tenant_filtering_witness :
    (["t2"] : List String) ≠ []
    ∧ "*" ∉ (["t2"] : List String)
    ∧ ∀ e ∈ (queryMmonitData [c2Inst] (some ["t2"]) (fun _ => c2Net) []).1,
        e.tenant ∈ (["t2"] : List String) :=
  ⟨by decide, by decide,
    c2_tenant_filtering [c2Inst] ["t2"] (fun _ => c2Net) [] (by decide) (by decide)⟩

end MmonitHub
